import Mathlib

/-!
Verification of the multi-engine transaction coordinator and isolation
harness of the `test-db` repository, shallowly embedded from
`src/utils/coordination.ts`, `src/utils/isolation.ts`,
`src/postgres/client.ts` and `src/mongodb/client.ts`.

Engine I/O is nondeterministic from the coordinator's point of view, so
every engine call's outcome is threaded in as data: `Option String` with
`none` meaning the call succeeded and `some e` meaning it threw error `e`.
Logging and telemetry wrappers (`createLogger`, `withSpan`, `measure`) are
transparent pass-throughs in the source and are omitted; the active
transaction registry is bookkeeping that never feeds back into the returned
result and is likewise omitted.
-/

namespace TestDb

/-- The runtime dispatch in `coordination.ts` distinguishes
`PostgresTestDB`, `MongoDBTestDB`, and any other value (the
`throw new Error('Unsupported database type')` branch of `beginTransaction`). -/
inductive DbKind
  | pg
  | mongo
  | other
deriving DecidableEq, Repr

/-- The part of an engine handle that `getDatabaseId` inspects: its config.
`hasHost` models the `'host' in config` check (true for every
`PostgresConfig`, false for every `MongoDBConfig`). -/
structure Db where
  kind : DbKind
  hasHost : Bool
  host : String
  port : Nat
  database : String
deriving DecidableEq, Repr

/-- Source `MultiDatabaseCoordinator.getDatabaseId` from `coordination.ts`. -/
def getDatabaseId (db : Db) : String :=
  if db.hasHost then
    "postgres://" ++ db.host ++ ":" ++ toString db.port ++ "/" ++ db.database
  else
    "mongodb://" ++ db.database

inductive IsolationLevel
  | read_uncommitted
  | read_committed
  | repeatable_read
  | serializable
deriving DecidableEq, Repr

/-- Source `TransactionConfig` from `coordination.ts`. Only the Postgres prepare
step reads it (extra `SET` statements whose failures are part of the
prepare outcome below), so no further field is interpreted. -/
structure TransactionConfig where
  isolation : IsolationLevel
  timeout : Option Nat := none
  retryAttempts : Option Nat := none
  retryDelay : Option Nat := none
deriving DecidableEq, Repr

/-- Source `DatabaseOperation` from `coordination.ts`, together with the outcome
each engine call involving this operation would have (`none` = the call
succeeds, `some e` = the call throws with message `e`):
`prepRes` for the Postgres leaseClient/BEGIN/SET calls of the prepare step,
`opRes` for `operation.operation(...)`, `commitRes` for the Postgres
`COMMIT`, `rollbackRes` for the Postgres `ROLLBACK`. -/
structure DatabaseOperation where
  db : Db
  prepRes : Option String
  opRes : Option String
  commitRes : Option String
  rollbackRes : Option String
  description : Option String := none
deriving DecidableEq, Repr

/-- Source `CoordinationResult` from `coordination.ts`; `errors` entries are
(database, error) pairs. -/
structure CoordinationResult where
  success : Bool
  transactionId : String
  duration : Nat
  committed : List String
  rolledBack : List String
  errors : List (String × String)
deriving DecidableEq, Repr

/-- Source `createInitialResult` from `coordination.ts`. -/
def createInitialResult (transactionId : String) : CoordinationResult :=
  { success := true
    transactionId := transactionId
    duration := 0
    committed := []
    rolledBack := []
    errors := [] }

/-- Observable engine-level actions of a coordinated/saga run, used to state
trace properties (which participants were prepared, whose unit of work ran,
which compensations ran and in what order). -/
inductive CoordEvent
  | prepareAttempt (dbId : String)
  | invokeOperation (dbId : String)
  | compensationRun (index : Nat) (dbId : String)
deriving DecidableEq, Repr

/-- Source `beginTransaction` from `coordination.ts`: for Postgres the engine calls
may fail (outcome `envPrep`), the MongoDB branch just returns the handle and
cannot fail, any other participant throws `Unsupported database type`. -/
def beginTransaction (database : Db) (_config : TransactionConfig)
    (envPrep : Option String) : Option String :=
  match database.kind with
  | .pg => envPrep
  | .mongo => none
  | .other => some "Unsupported database type"

/-- Source `prepareCoordinatedTransactions`: attempt to begin a transaction for
every operation (no short-circuit); a failure appends an error entry and
clears `success`. Returns the prepared transactions, the updated result and
the trace of prepare attempts. -/
def prepareCoordinatedTransactions (operations : List DatabaseOperation)
    (config : TransactionConfig) (result : CoordinationResult) :
    List DatabaseOperation × CoordinationResult × List CoordEvent :=
  match operations with
  | [] => ([], result, [])
  | op :: rest =>
    match beginTransaction op.db config op.prepRes with
    | none =>
      let step := prepareCoordinatedTransactions rest config result
      (op :: step.1, step.2.1, .prepareAttempt (getDatabaseId op.db) :: step.2.2)
    | some e =>
      let r1 : CoordinationResult :=
        { result with
          errors := result.errors ++ [(getDatabaseId op.db, e)]
          success := false }
      let step := prepareCoordinatedTransactions rest config r1
      (step.1, step.2.1, .prepareAttempt (getDatabaseId op.db) :: step.2.2)

/-- The loop body of `executePreparedTransactions`: run each prepared
operation in order, appending its database id to `committed` on success;
the first failure appends an error entry, clears `success` and returns. -/
def executeOps (prepared : List DatabaseOperation)
    (result : CoordinationResult) : CoordinationResult × List CoordEvent :=
  match prepared with
  | [] => (result, [])
  | op :: rest =>
    match op.opRes with
    | none =>
      let r1 : CoordinationResult :=
        { result with committed := result.committed ++ [getDatabaseId op.db] }
      let step := executeOps rest r1
      (step.1, .invokeOperation (getDatabaseId op.db) :: step.2)
    | some e =>
      ({ result with
          errors := result.errors ++ [(getDatabaseId op.db, e)]
          success := false },
       [.invokeOperation (getDatabaseId op.db)])

/-- Source `executePreparedTransactions`: skipped entirely when a prepare already
failed (`if (!result.success) return`). -/
def executePreparedTransactions (prepared : List DatabaseOperation)
    (result : CoordinationResult) : CoordinationResult × List CoordEvent :=
  if result.success then executeOps prepared result else (result, [])

/-- Source `commitAll`: issue `COMMIT` + release for each prepared Postgres
participant (MongoDB commits are a no-op); a commit failure appends a
`Commit failed:` error and clears `success`. Nothing is appended to
`committed` here. -/
def commitAll (transactions : List DatabaseOperation)
    (result : CoordinationResult) : CoordinationResult :=
  match transactions with
  | [] => result
  | op :: rest =>
    let r1 : CoordinationResult :=
      match op.db.kind, op.commitRes with
      | .pg, some e =>
        { result with
          errors := result.errors ++ [(getDatabaseId op.db, "Commit failed: " ++ e)]
          success := false }
      | _, _ => result
    commitAll rest r1

/-- Source `rollbackAll`: issue `ROLLBACK` + release for each prepared Postgres
participant, then record it in `rolledBack`; a rollback failure appends a
`Rollback failed:` error instead (skipping the `rolledBack` push).
Non-Postgres participants are recorded without any engine call. -/
def rollbackAll (transactions : List DatabaseOperation)
    (result : CoordinationResult) : CoordinationResult :=
  match transactions with
  | [] => result
  | op :: rest =>
    let r1 : CoordinationResult :=
      match op.db.kind, op.rollbackRes with
      | .pg, some e =>
        { result with
          errors := result.errors ++ [(getDatabaseId op.db, "Rollback failed: " ++ e)] }
      | _, _ =>
        { result with rolledBack := result.rolledBack ++ [getDatabaseId op.db] }
    rollbackAll rest r1

/-- Source `finalizePreparedTransactions`. -/
def finalizePreparedTransactions (prepared : List DatabaseOperation)
    (result : CoordinationResult) : CoordinationResult :=
  if result.success then commitAll prepared result
  else rollbackAll prepared result

/-- Source `runCoordinatedTransaction` (registry/logging bookkeeping omitted). -/
def runCoordinatedTransaction (operations : List DatabaseOperation)
    (config : TransactionConfig) (result : CoordinationResult) :
    CoordinationResult × List CoordEvent :=
  let prep := prepareCoordinatedTransactions operations config result
  let exec := executePreparedTransactions prep.1 prep.2.1
  (finalizePreparedTransactions prep.1 exec.1, prep.2.2 ++ exec.2)

/-- Source `executeCoordinatedTransaction`. Every per-participant failure is
captured inside the phases, so the body never throws and the outer
`catch` of the source is dead; the call always returns a result. Wall-clock
`duration` is not modelled (stays 0). -/
def executeCoordinatedTransaction (operations : List DatabaseOperation)
    (config : TransactionConfig) (transactionId : String) :
    CoordinationResult × List CoordEvent :=
  runCoordinatedTransaction operations config (createInitialResult transactionId)

/-- The loop of `executeCompensations` iterates `index` from
`operations.length - 1` down to `0`, invoking `compensations[index]` when
both it and `operations[index]` exist; a success records the participant in
`rolledBack`, a failure appends a `Compensation failed:` error without
aborting the remaining compensations. `executeCompensationsAux completed
comps n` performs the iterations for indices `n-1, n-2, ..., 0`. -/
def executeCompensationsAux (completed : List DatabaseOperation)
    (compensations : List (Option String)) :
    Nat → CoordinationResult → CoordinationResult × List CoordEvent
  | 0, result => (result, [])
  | n + 1, result =>
    match completed[n]?, compensations[n]? with
    | some op, some comp =>
      let r1 : CoordinationResult :=
        match comp with
        | none =>
          { result with rolledBack := result.rolledBack ++ [getDatabaseId op.db] }
        | some e =>
          { result with
            errors := result.errors ++
              [(getDatabaseId op.db, "Compensation failed: " ++ e)] }
      let step := executeCompensationsAux completed compensations n r1
      (step.1, .compensationRun n (getDatabaseId op.db) :: step.2)
    | _, _ => executeCompensationsAux completed compensations n result

/-- Source `executeCompensations` from `coordination.ts`. -/
def executeCompensations (completed : List DatabaseOperation)
    (compensations : List (Option String)) (result : CoordinationResult) :
    CoordinationResult × List CoordEvent :=
  executeCompensationsAux completed compensations completed.length result

/-- Source `executeSagaOperations`: run each operation directly against its
participant; on success append to `committed` and to the completed list, on
the first failure append the error, clear `success`, run the compensations
for the completed operations and stop. -/
def executeSagaOperations (operations : List DatabaseOperation)
    (compensations : List (Option String))
    (completedOperations : List DatabaseOperation)
    (result : CoordinationResult) : CoordinationResult × List CoordEvent :=
  match operations with
  | [] => (result, [])
  | op :: rest =>
    match op.opRes with
    | none =>
      let r1 : CoordinationResult :=
        { result with committed := result.committed ++ [getDatabaseId op.db] }
      let step := executeSagaOperations rest compensations
        (completedOperations ++ [op]) r1
      (step.1, .invokeOperation (getDatabaseId op.db) :: step.2)
    | some e =>
      let r1 : CoordinationResult :=
        { result with
          errors := result.errors ++ [(getDatabaseId op.db, e)]
          success := false }
      let step := executeCompensations completedOperations compensations r1
      (step.1, .invokeOperation (getDatabaseId op.db) :: step.2)

/-- Source `executeSagaTransaction` (via `runSagaTransaction`, which starts from an
empty completed list). Each compensation's outcome is `none` (succeeds) or
`some e` (throws `e`); a missing list entry models an `undefined`
compensation, which the source skips. -/
def executeSagaTransaction (operations : List DatabaseOperation)
    (compensations : List (Option String)) (transactionId : String) :
    CoordinationResult × List CoordEvent :=
  executeSagaOperations operations compensations [] (createInitialResult transactionId)

/-- The settled-results loop of `runEventuallyConsistentOperations`:
`Promise.allSettled` preserves input order, so the fulfilled/rejected
outcomes are folded over in input order. A fulfilled operation appends its
database id to `committed`; a rejected one appends an error entry whose
database field is the literal string `eventual`, and clears `success`. -/
def runEventuallyConsistentOperations (operations : List DatabaseOperation)
    (result : CoordinationResult) : CoordinationResult :=
  match operations with
  | [] => result
  | op :: rest =>
    let r1 : CoordinationResult :=
      match op.opRes with
      | none =>
        { result with committed := result.committed ++ [getDatabaseId op.db] }
      | some e =>
        { result with
          errors := result.errors ++ [("eventual", e)]
          success := false }
    runEventuallyConsistentOperations rest r1

/-- Source `executeEventuallyConsistent`. `waitForConsistency` races the combined
operations against an advisory timer; `timedOut` selects which promise wins
the race. When the timer wins, the call returns before the settled-results
loop has mutated the result, i.e. it returns the initial result. -/
def executeEventuallyConsistent (operations : List DatabaseOperation)
    (timedOut : Bool) (transactionId : String) : CoordinationResult :=
  let result := createInitialResult transactionId
  if timedOut then result
  else runEventuallyConsistentOperations operations result

/-! ## Isolation harness (`isolation.ts`) -/

/-- Actions issued on the leased `PoolClient` during harness teardown. -/
inductive HarnessEvent
  | query (sql : String)
  | release
deriving DecidableEq, Repr

/-- The `TRUNCATE` statement built by `afterEach` from
`options.tablesToTruncate`. -/
def truncateSql (tables : List String) : String :=
  "TRUNCATE TABLE " ++
    String.intercalate ", " (tables.map (fun t => "\"" ++ t ++ "\"")) ++
    " CASCADE"

/-- Source `afterEach` of `createPostgresTransactionalHarness`:
skip everything when no client is leased; otherwise run (inside a
`try`/`finally` whose `finally` releases the client):
if `tablesToTruncate` is non-empty, issue the `TRUNCATE` (outcome
`truncateRes`), then issue `ROLLBACK` (outcome `rollbackRes`).
Returns the ordered client actions plus the error propagated to the
caller, if any. -/
def harnessAfterEach (clientLeased : Bool) (tablesToTruncate : List String)
    (truncateRes rollbackRes : Option String) :
    List HarnessEvent × Option String :=
  if clientLeased then
    if tablesToTruncate.isEmpty then
      ([.query "ROLLBACK", .release], rollbackRes)
    else
      match truncateRes with
      | some e => ([.query (truncateSql tablesToTruncate), .release], some e)
      | none =>
        ([.query (truncateSql tablesToTruncate), .query "ROLLBACK", .release],
         rollbackRes)
  else
    ([], none)

/-! ## Engine handle state machines (`postgres/client.ts`, `mongodb/client.ts`) -/

inductive ConnectionState
  | disconnected
  | connecting
  | connected
  | disconnecting
deriving DecidableEq, Repr

/-- The connection-lifecycle state of a `PostgresTestDB` handle:
its `state` field, whether `pool` is non-null, and a count of `new Pool`
constructions (to observe connection attempts). -/
structure PostgresTestDB where
  state : ConnectionState
  hasPool : Bool
  poolsCreated : Nat
deriving DecidableEq, Repr

/-- Source `PostgresTestDB.connect`: a no-op (warn only) unless `state` is
`disconnected`; otherwise construct a pool and test the connection
(combined outcome `outcome`), ending `connected` on success; on failure the
state reverts to `disconnected` (the pool field keeps the failed pool) and
the error propagates. -/
def PostgresTestDB.connect (h : PostgresTestDB) (outcome : Option String) :
    PostgresTestDB × Option String :=
  if h.state ≠ ConnectionState.disconnected then
    (h, none)
  else
    match outcome with
    | none =>
      ({ state := .connected, hasPool := true, poolsCreated := h.poolsCreated + 1 },
       none)
    | some e =>
      ({ state := .disconnected, hasPool := true, poolsCreated := h.poolsCreated + 1 },
       some e)

/-- Source `PostgresTestDB.disconnect`: returns immediately when already
`disconnected` (no engine call); otherwise moves to `disconnecting` and
ends the pool (outcome `outcome`), reaching `disconnected` on success; on
failure the state stays `disconnecting`, the pool is kept and the error
propagates. -/
def PostgresTestDB.disconnect (h : PostgresTestDB) (outcome : Option String) :
    PostgresTestDB × Option String :=
  if h.state = ConnectionState.disconnected then
    (h, none)
  else
    if h.hasPool then
      match outcome with
      | none =>
        ({ h with state := .disconnected, hasPool := false }, none)
      | some e =>
        ({ h with state := .disconnecting }, some e)
    else
      ({ h with state := .disconnected }, none)

/-- The connection-lifecycle state of a `MongoDBTestDB` handle: its `state`
field, whether `client`/`db` are non-null, and a count of `new MongoClient`
constructions. -/
structure MongoDBTestDB where
  state : ConnectionState
  hasClient : Bool
  clientsCreated : Nat
deriving DecidableEq, Repr

/-- Source `MongoDBTestDB.connect`: same guard and transitions as the Postgres
handle (construct client, connect, ping; on failure revert to
`disconnected` and propagate). -/
def MongoDBTestDB.connect (h : MongoDBTestDB) (outcome : Option String) :
    MongoDBTestDB × Option String :=
  if h.state ≠ ConnectionState.disconnected then
    (h, none)
  else
    match outcome with
    | none =>
      ({ state := .connected, hasClient := true, clientsCreated := h.clientsCreated + 1 },
       none)
    | some e =>
      ({ state := .disconnected, hasClient := true, clientsCreated := h.clientsCreated + 1 },
       some e)

/-- Source `MongoDBTestDB.disconnect`: returns immediately when already
`disconnected`; otherwise closes the client, reaching `disconnected` on
success; on failure the state stays `disconnecting` and the error
propagates. -/
def MongoDBTestDB.disconnect (h : MongoDBTestDB) (outcome : Option String) :
    MongoDBTestDB × Option String :=
  if h.state = ConnectionState.disconnected then
    (h, none)
  else
    if h.hasClient then
      match outcome with
      | none =>
        ({ h with state := .disconnected, hasClient := false }, none)
      | some e =>
        ({ h with state := .disconnecting }, some e)
    else
      ({ h with state := .disconnected }, none)

/-! ## Outcome predicates used in the theorem statements -/

/-- The prepare step for this operation succeeds (its `beginTransaction`
call does not throw). -/
def prepareOk (config : TransactionConfig) (op : DatabaseOperation) : Prop :=
  beginTransaction op.db config op.prepRes = none

instance (config : TransactionConfig) (op : DatabaseOperation) :
    Decidable (prepareOk config op) :=
  inferInstanceAs (Decidable (beginTransaction op.db config op.prepRes = none))

/-- The operation's unit of work succeeds. -/
def execOk (op : DatabaseOperation) : Prop :=
  op.opRes = none

instance (op : DatabaseOperation) : Decidable (execOk op) :=
  inferInstanceAs (Decidable (op.opRes = none))

/-- The `COMMIT` for this participant succeeds (only Postgres participants
issue one; for the rest commit is a no-op that cannot fail). -/
def commitOk (op : DatabaseOperation) : Prop :=
  op.db.kind = DbKind.pg → op.commitRes = none

instance (op : DatabaseOperation) : Decidable (commitOk op) :=
  inferInstanceAs (Decidable (op.db.kind = DbKind.pg → op.commitRes = none))

/-- The `ROLLBACK` for this participant succeeds (only Postgres
participants issue one; for the rest rollback is a no-op that cannot
fail). -/
def rollbackOk (op : DatabaseOperation) : Prop :=
  op.db.kind = DbKind.pg → op.rollbackRes = none

instance (op : DatabaseOperation) : Decidable (rollbackOk op) :=
  inferInstanceAs (Decidable (op.db.kind = DbKind.pg → op.rollbackRes = none))

/-! ## Concrete fixtures for witnesses and counterexamples -/

def cfg0 : TransactionConfig := { isolation := .read_committed }

def pgDbA : Db :=
  { kind := .pg, hasHost := true, host := "localhost", port := 5432, database := "dba" }

def pgDbB : Db :=
  { kind := .pg, hasHost := true, host := "localhost", port := 5432, database := "dbb" }

def mongoDbC : Db :=
  { kind := .mongo, hasHost := false, host := "", port := 0, database := "dbc" }

def otherDb : Db :=
  { kind := .other, hasHost := false, host := "", port := 0, database := "mystery" }

/-- A Postgres operation for which every engine call succeeds. -/
def opA : DatabaseOperation :=
  { db := pgDbA, prepRes := none, opRes := none, commitRes := none, rollbackRes := none }

/-- A MongoDB operation for which every engine call succeeds. -/
def opC : DatabaseOperation :=
  { db := mongoDbC, prepRes := none, opRes := none, commitRes := none, rollbackRes := none }

/-- A Postgres operation whose unit of work throws. -/
def opBFail : DatabaseOperation :=
  { db := pgDbB, prepRes := none, opRes := some "boom", commitRes := none, rollbackRes := none }

/-- A Postgres operation whose prepare step throws. -/
def opPrepFail : DatabaseOperation :=
  { db := pgDbA, prepRes := some "lease refused", opRes := none, commitRes := none,
    rollbackRes := none }

/-- A Postgres operation that prepares fine but whose `ROLLBACK` throws. -/
def opRollbackFail : DatabaseOperation :=
  { db := pgDbB, prepRes := none, opRes := none, commitRes := none,
    rollbackRes := some "connection lost" }

/-- An operation on an unsupported participant. -/
def opOther : DatabaseOperation :=
  { db := otherDb, prepRes := none, opRes := none, commitRes := none, rollbackRes := none }

def pgConnected : PostgresTestDB :=
  { state := .connected, hasPool := true, poolsCreated := 1 }

def pgDisconnected : PostgresTestDB :=
  { state := .disconnected, hasPool := false, poolsCreated := 1 }

def mongoConnected : MongoDBTestDB :=
  { state := .connected, hasClient := true, clientsCreated := 1 }

def mongoDisconnected : MongoDBTestDB :=
  { state := .disconnected, hasClient := false, clientsCreated := 1 }

/-! ## Characterization lemmas for the coordinated phases -/

theorem prepare_char (operations : List DatabaseOperation)
    (config : TransactionConfig) :
    ∀ result : CoordinationResult,
      prepareCoordinatedTransactions operations config result =
        (operations.filter (fun op => beginTransaction op.db config op.prepRes == none),
         { result with
            errors := result.errors ++ operations.filterMap
              (fun op => (beginTransaction op.db config op.prepRes).map
                (fun e => (getDatabaseId op.db, e)))
            success := result.success &&
              operations.all (fun op => beginTransaction op.db config op.prepRes == none) },
         operations.map (fun op => CoordEvent.prepareAttempt (getDatabaseId op.db))) := by
  induction operations with
  | nil => intro result; simp [prepareCoordinatedTransactions]
  | cons op rest ih =>
    intro result
    simp only [prepareCoordinatedTransactions]
    cases hb : beginTransaction op.db config op.prepRes with
    | none =>
      simp [hb, ih, List.filter_cons, List.filterMap_cons]
    | some e =>
      simp [hb, ih, List.filter_cons, List.filterMap_cons, List.append_assoc]

theorem executeOps_ok_char (prepared : List DatabaseOperation)
    (hok : ∀ op ∈ prepared, op.opRes = none) :
    ∀ result : CoordinationResult,
      executeOps prepared result =
        ({ result with
            committed := result.committed ++
              prepared.map (fun op => getDatabaseId op.db) },
         prepared.map (fun op => CoordEvent.invokeOperation (getDatabaseId op.db))) := by
  induction prepared with
  | nil => intro result; simp [executeOps]
  | cons op rest ih =>
    intro result
    have hop : op.opRes = none := hok op (by simp)
    have hrest : ∀ o ∈ rest, o.opRes = none := fun o ho => hok o (by simp [ho])
    simp [executeOps, hop, ih hrest, List.append_assoc]

theorem executeOps_split_char (pre post : List DatabaseOperation)
    (opk : DatabaseOperation) (e : String)
    (hpre : ∀ op ∈ pre, op.opRes = none) (hk : opk.opRes = some e) :
    ∀ result : CoordinationResult,
      executeOps (pre ++ opk :: post) result =
        ({ result with
            committed := result.committed ++ pre.map (fun op => getDatabaseId op.db)
            errors := result.errors ++ [(getDatabaseId opk.db, e)]
            success := false },
         pre.map (fun op => CoordEvent.invokeOperation (getDatabaseId op.db)) ++
           [CoordEvent.invokeOperation (getDatabaseId opk.db)]) := by
  induction pre with
  | nil => intro result; simp [executeOps, hk]
  | cons op rest ih =>
    intro result
    have hop : op.opRes = none := hpre op (by simp)
    have hrest : ∀ o ∈ rest, o.opRes = none := fun o ho => hpre o (by simp [ho])
    simp [executeOps, hop, ih hrest, List.append_assoc]

theorem commitAll_char (transactions : List DatabaseOperation) :
    ∀ result : CoordinationResult,
      commitAll transactions result =
        { result with
            errors := result.errors ++ transactions.filterMap
              (fun op => match op.db.kind, op.commitRes with
                | DbKind.pg, some e =>
                  some (getDatabaseId op.db, "Commit failed: " ++ e)
                | _, _ => none)
            success := result.success &&
              transactions.all
                (fun op => !(op.db.kind == DbKind.pg && op.commitRes.isSome)) } := by
  induction transactions with
  | nil => intro result; simp [commitAll]
  | cons op rest ih =>
    intro result
    cases hkind : op.db.kind <;>
      cases hc : op.commitRes <;>
        simp [commitAll, hkind, hc, ih, List.append_assoc] <;> rfl

theorem rollbackAll_char (transactions : List DatabaseOperation) :
    ∀ result : CoordinationResult,
      rollbackAll transactions result =
        { result with
            rolledBack := result.rolledBack ++ transactions.filterMap
              (fun op =>
                if op.db.kind == DbKind.pg && op.rollbackRes.isSome then none
                else some (getDatabaseId op.db))
            errors := result.errors ++ transactions.filterMap
              (fun op => match op.db.kind, op.rollbackRes with
                | DbKind.pg, some e =>
                  some (getDatabaseId op.db, "Rollback failed: " ++ e)
                | _, _ => none) } := by
  induction transactions with
  | nil => intro result; simp [rollbackAll]
  | cons op rest ih =>
    intro result
    cases hkind : op.db.kind <;>
      cases hc : op.rollbackRes <;>
        simp [rollbackAll, hkind, hc, ih, List.append_assoc]

theorem runEventuallyConsistentOperations_char
    (operations : List DatabaseOperation) :
    ∀ result : CoordinationResult,
      runEventuallyConsistentOperations operations result =
        { result with
            committed := result.committed ++ operations.filterMap
              (fun op => match op.opRes with
                | none => some (getDatabaseId op.db)
                | some _ => none)
            errors := result.errors ++ operations.filterMap
              (fun op => op.opRes.map (fun e => ("eventual", e)))
            success := result.success &&
              operations.all (fun op => op.opRes.isNone) } := by
  induction operations with
  | nil => intro result; simp [runEventuallyConsistentOperations]
  | cons op rest ih =>
    intro result
    cases hop : op.opRes <;>
      simp [runEventuallyConsistentOperations, hop, ih, List.append_assoc]

theorem executeCompensationsAux_success (completed : List DatabaseOperation)
    (compensations : List (Option String)) :
    ∀ (n : Nat) (result : CoordinationResult),
      (executeCompensationsAux completed compensations n result).1.success =
          result.success ∧
        (executeCompensationsAux completed compensations n result).1.committed =
          result.committed := by
  intro n
  induction n with
  | zero => intro result; simp [executeCompensationsAux]
  | succ n ih =>
    intro result
    simp only [executeCompensationsAux]
    cases hco : completed[n]? with
    | none => exact ih result
    | some op =>
      cases hcc : compensations[n]? with
      | none => exact ih result
      | some comp =>
        cases comp with
        | none => simpa using ih _
        | some e => simpa using ih _

theorem executeCompensationsAux_char (completed : List DatabaseOperation)
    (compensations : List (Option String)) :
    ∀ (n : Nat), n ≤ completed.length → n ≤ compensations.length →
      ∀ result : CoordinationResult,
        executeCompensationsAux completed compensations n result =
          ({ result with
              rolledBack := result.rolledBack ++
                ((completed.enum.take n).reverse).filterMap
                  (fun p => match compensations[p.1]? with
                    | some none => some (getDatabaseId p.2.db)
                    | _ => none)
              errors := result.errors ++
                ((completed.enum.take n).reverse).filterMap
                  (fun p => match compensations[p.1]? with
                    | some (some e) =>
                      some (getDatabaseId p.2.db, "Compensation failed: " ++ e)
                    | _ => none) },
           ((completed.enum.take n).reverse).map
             (fun p => CoordEvent.compensationRun p.1 (getDatabaseId p.2.db))) := by
  intro n
  induction n with
  | zero => intro _ _ result; simp [executeCompensationsAux]
  | succ n ih =>
    intro h1 h2 result
    have hn1 : n < completed.length := Nat.lt_of_succ_le h1
    have hn2 : n < compensations.length := Nat.lt_of_succ_le h2
    have hop : completed[n]? = some completed[n] := List.getElem?_eq_getElem hn1
    have hcomp : compensations[n]? = some compensations[n] :=
      List.getElem?_eq_getElem hn2
    have htake : completed.enum.take (n + 1) =
        completed.enum.take n ++ [(n, completed[n])] := by
      rw [List.take_succ]
      simp [List.getElem?_enum, hop]
    have ihr := ih (Nat.le_of_lt hn1) (Nat.le_of_lt hn2)
    simp only [executeCompensationsAux, hop, hcomp]
    cases hc : compensations[n] with
    | none =>
      simp [htake, hc, hcomp, ihr, List.append_assoc]
    | some e =>
      simp [htake, hc, hcomp, ihr, List.append_assoc]

theorem executeCompensations_success (completed : List DatabaseOperation)
    (compensations : List (Option String)) (result : CoordinationResult) :
    (executeCompensations completed compensations result).1.success =
      result.success :=
  (executeCompensationsAux_success completed compensations completed.length
    result).1

theorem executeSagaOperations_fail_char (comps : List (Option String))
    (opk : DatabaseOperation) (e : String) (hk : opk.opRes = some e) :
    ∀ (pre : List DatabaseOperation), (∀ op ∈ pre, op.opRes = none) →
      ∀ (post completed : List DatabaseOperation) (result : CoordinationResult),
        executeSagaOperations (pre ++ opk :: post) comps completed result =
          (let r1 : CoordinationResult :=
            { result with
                committed := result.committed ++
                  pre.map (fun op => getDatabaseId op.db)
                errors := result.errors ++ [(getDatabaseId opk.db, e)]
                success := false }
          let step := executeCompensations (completed ++ pre) comps r1
          (step.1,
           pre.map (fun op => CoordEvent.invokeOperation (getDatabaseId op.db)) ++
             CoordEvent.invokeOperation (getDatabaseId opk.db) :: step.2)) := by
  intro pre
  induction pre with
  | nil => intro _ post completed result; simp [executeSagaOperations, hk]
  | cons op rest ih =>
    intro hpre post completed result
    have hop : op.opRes = none := hpre op (by simp)
    simp only [List.cons_append, executeSagaOperations, hop, List.append_eq]
    rw [ih (fun o ho => hpre o (by simp [ho]))]
    simp [List.append_assoc]

theorem executeSagaOperations_rolledBack_of_success :
    ∀ (operations : List DatabaseOperation) (comps : List (Option String))
      (completed : List DatabaseOperation) (result : CoordinationResult),
      (executeSagaOperations operations comps completed result).1.success = true →
      (executeSagaOperations operations comps completed result).1.rolledBack =
        result.rolledBack := by
  intro operations
  induction operations with
  | nil => intro comps completed result _; simp [executeSagaOperations]
  | cons op rest ih =>
    intro comps completed result hsucc
    cases hop : op.opRes with
    | none =>
      simp only [executeSagaOperations, hop] at hsucc ⊢
      exact ih comps _ _ hsucc
    | some e =>
      exfalso
      simp only [executeSagaOperations, hop] at hsucc
      rw [executeCompensations_success] at hsucc
      simp at hsucc

theorem executeOps_rolledBack (prepared : List DatabaseOperation) :
    ∀ result : CoordinationResult,
      (executeOps prepared result).1.rolledBack = result.rolledBack := by
  induction prepared with
  | nil => intro result; simp [executeOps]
  | cons op rest ih =>
    intro result
    cases hop : op.opRes <;> simp [executeOps, hop, ih]

theorem executePreparedTransactions_rolledBack
    (prepared : List DatabaseOperation) (result : CoordinationResult) :
    (executePreparedTransactions prepared result).1.rolledBack =
      result.rolledBack := by
  unfold executePreparedTransactions
  by_cases hs : result.success <;> simp [hs, executeOps_rolledBack]

theorem finalize_rolledBack_of_success (prepared : List DatabaseOperation)
    (result : CoordinationResult)
    (h : (finalizePreparedTransactions prepared result).success = true) :
    (finalizePreparedTransactions prepared result).rolledBack =
      result.rolledBack := by
  unfold finalizePreparedTransactions at h ⊢
  by_cases hs : result.success
  · simp [hs, commitAll_char]
  · rw [if_neg hs, rollbackAll_char] at h
    simp only at h
    exact absurd h hs

/-! ## Claims -/

/-- C6: for every operations list in which every participant's prepare,
operation, and commit succeed, `executeCoordinatedTransaction` returns a
result with `success = true`, `committed.length = operations.length`, and
`rolledBack.length = 0`. -/
theorem C6_coordinated_all_success (operations : List DatabaseOperation)
    (config : TransactionConfig) (transactionId : String)
    (hok : ∀ op ∈ operations, prepareOk config op ∧ execOk op ∧ commitOk op) :
    ((executeCoordinatedTransaction operations config transactionId).1.success =
      true) ∧
    ((executeCoordinatedTransaction operations config transactionId).1.committed.length =
      operations.length) ∧
    ((executeCoordinatedTransaction operations config transactionId).1.rolledBack =
      []) := by
  have hprep : ∀ op ∈ operations, beginTransaction op.db config op.prepRes = none :=
    fun op h => (hok op h).1
  have hexec : ∀ op ∈ operations, op.opRes = none := fun op h => (hok op h).2.1
  have hfilter : operations.filter
      (fun op => beginTransaction op.db config op.prepRes == none) = operations :=
    List.filter_eq_self.mpr fun op h => by simp [hprep op h]
  have hfmap : operations.filterMap
      (fun op => (beginTransaction op.db config op.prepRes).map
        (fun e => (getDatabaseId op.db, e))) = [] := by
    rw [List.filterMap_eq_nil_iff]
    intro op h
    simp [hprep op h]
  have hall : operations.all
      (fun op => beginTransaction op.db config op.prepRes == none) = true :=
    List.all_eq_true.mpr fun op h => by simp [hprep op h]
  have hcall : operations.all
      (fun op => !(op.db.kind == DbKind.pg && op.commitRes.isSome)) = true := by
    refine List.all_eq_true.mpr fun op h => ?_
    have hc := (hok op h).2.2
    cases hk : op.db.kind with
    | pg => simp [hk, hc hk]
    | mongo => simp [hk]
    | other => simp [hk]
  simp only [executeCoordinatedTransaction, runCoordinatedTransaction]
  rw [prepare_char, hfilter, hfmap, hall]
  simp only [executePreparedTransactions, createInitialResult, Bool.and_self,
    List.nil_append, if_true]
  rw [executeOps_ok_char operations hexec]
  simp only [finalizePreparedTransactions, if_true]
  rw [commitAll_char]
  simp [hcall]
  intro op h
  by_cases hk : op.db.kind = DbKind.pg
  · exact Or.inr ((hok op h).2.2 hk)
  · exact Or.inl hk

/-- C6 witness: a concrete two-participant run in which everything
succeeds. -/
theorem C6_witness :
    ((executeCoordinatedTransaction [opA, opC] cfg0 "t").1.success = true) ∧
    ((executeCoordinatedTransaction [opA, opC] cfg0 "t").1.committed.length =
      [opA, opC].length) ∧
    ((executeCoordinatedTransaction [opA, opC] cfg0 "t").1.rolledBack = []) :=
  C6_coordinated_all_success [opA, opC] cfg0 "t" (by decide)

/-- C1 counterexample: with two Postgres operations whose prepares succeed
and whose second operation fails during the execute phase, the returned
`committed` list is NOT empty — the execute loop had already recorded the
first participant as committed before the failure. -/
theorem C1_counterexample :
    ¬ ((executeCoordinatedTransaction [opA, opBFail] cfg0 "t").1.committed.length
        = 0) := by decide

/-- C1 (amended): if all prepares succeed and operation `k` (at position
`pre.length`) fails during the execute phase, the result has
`success = false`, `committed` holds exactly the identifiers of operations
`0..k-1` (in input order), and every participant whose rollback attempt did
not itself fail is recorded in `rolledBack`. -/
theorem C1_coordinated_execute_failure (pre post : List DatabaseOperation)
    (opk : DatabaseOperation) (e : String) (config : TransactionConfig)
    (transactionId : String)
    (hprep0 : ∀ op ∈ pre ++ opk :: post, prepareOk config op)
    (hpre : ∀ op ∈ pre, execOk op) (hk : opk.opRes = some e) :
    ((executeCoordinatedTransaction (pre ++ opk :: post) config
        transactionId).1.success = false) ∧
    ((executeCoordinatedTransaction (pre ++ opk :: post) config
        transactionId).1.committed =
      pre.map (fun op => getDatabaseId op.db)) ∧
    (∀ op ∈ pre ++ opk :: post, rollbackOk op →
      getDatabaseId op.db ∈
        (executeCoordinatedTransaction (pre ++ opk :: post) config
          transactionId).1.rolledBack) := by
  have hprep : ∀ op ∈ pre ++ opk :: post,
      beginTransaction op.db config op.prepRes = none :=
    fun op h => hprep0 op h
  have hfilter : (pre ++ opk :: post).filter
      (fun op => beginTransaction op.db config op.prepRes == none) =
        pre ++ opk :: post :=
    List.filter_eq_self.mpr fun op h => by simp [hprep op h]
  have hfmap : (pre ++ opk :: post).filterMap
      (fun op => (beginTransaction op.db config op.prepRes).map
        (fun e => (getDatabaseId op.db, e))) = [] := by
    rw [List.filterMap_eq_nil_iff]
    intro op h
    simp [hprep op h]
  have hall : (pre ++ opk :: post).all
      (fun op => beginTransaction op.db config op.prepRes == none) = true :=
    List.all_eq_true.mpr fun op h => by simp [hprep op h]
  simp only [executeCoordinatedTransaction, runCoordinatedTransaction]
  rw [prepare_char, hfilter, hfmap, hall]
  simp only [executePreparedTransactions, createInitialResult, Bool.and_self,
    List.nil_append, if_true]
  rw [executeOps_split_char pre post opk e hpre hk]
  simp only [finalizePreparedTransactions, Bool.false_eq_true, if_false]
  rw [rollbackAll_char]
  refine ⟨by simp, by simp, ?_⟩
  intro op hmem hrb
  have hfm : getDatabaseId op.db ∈ (pre ++ opk :: post).filterMap
      (fun op =>
        if op.db.kind == DbKind.pg && op.rollbackRes.isSome then none
        else some (getDatabaseId op.db)) := by
    refine List.mem_filterMap.mpr ⟨op, hmem, ?_⟩
    by_cases hkd : op.db.kind = DbKind.pg
    · simp [hkd, hrb hkd]
    · simp [hkd]
  simpa using hfm

/-- C1 witness: the amended statement at a concrete input (first operation
succeeds, second fails during execution, all rollbacks succeed). -/
theorem C1_witness :
    ((executeCoordinatedTransaction [opA, opBFail] cfg0 "t").1.success =
      false) ∧
    ((executeCoordinatedTransaction [opA, opBFail] cfg0 "t").1.committed =
      [getDatabaseId pgDbA]) ∧
    (getDatabaseId opBFail.db ∈
      (executeCoordinatedTransaction [opA, opBFail] cfg0 "t").1.rolledBack) :=
  ⟨(C1_coordinated_execute_failure [opA] [] opBFail "boom" cfg0 "t"
      (by decide) (by decide) (by decide)).1,
   (C1_coordinated_execute_failure [opA] [] opBFail "boom" cfg0 "t"
      (by decide) (by decide) (by decide)).2.1,
   (C1_coordinated_execute_failure [opA] [] opBFail "boom" cfg0 "t"
      (by decide) (by decide) (by decide)).2.2 opBFail (by decide) (by decide)⟩

/-- C2 counterexample: a saga in which the first operation succeeds and the
second fails returns `committed = [id A]` with `success = false` (and,
compensations having run, `id A` also appears in `rolledBack`), so
"committed is non-empty only when success is true" fails on this result. -/
theorem C2_counterexample :
    ¬ (((executeSagaTransaction [opA, opBFail] [none, none] "t").1.committed
          ≠ []) →
        (executeSagaTransaction [opA, opBFail] [none, none] "t").1.success =
          true) := by decide

/-- C2 (amended): in all three modes, `rolledBack` is empty whenever the
returned result has `success = true` — so the committed and rolled-back
lists are disjoint in every successful result; a failed result, however,
may carry a non-empty `committed` list (and the two lists may overlap). -/
theorem C2_rolledBack_empty_of_success :
    (∀ (operations : List DatabaseOperation) (config : TransactionConfig)
        (transactionId : String),
      (executeCoordinatedTransaction operations config transactionId).1.success =
        true →
      (executeCoordinatedTransaction operations config transactionId).1.rolledBack =
        []) ∧
    (∀ (operations : List DatabaseOperation) (comps : List (Option String))
        (transactionId : String),
      (executeSagaTransaction operations comps transactionId).1.success = true →
      (executeSagaTransaction operations comps transactionId).1.rolledBack = []) ∧
    (∀ (operations : List DatabaseOperation) (timedOut : Bool)
        (transactionId : String),
      (executeEventuallyConsistent operations timedOut transactionId).success =
        true →
      (executeEventuallyConsistent operations timedOut transactionId).rolledBack =
        []) := by
  refine ⟨?_, ?_, ?_⟩
  · intro operations config transactionId h
    simp only [executeCoordinatedTransaction, runCoordinatedTransaction] at h ⊢
    rw [finalize_rolledBack_of_success _ _ h,
      executePreparedTransactions_rolledBack, prepare_char]
    simp [createInitialResult]
  · intro operations comps transactionId h
    simp only [executeSagaTransaction] at h ⊢
    rw [executeSagaOperations_rolledBack_of_success _ _ _ _ h]
    simp [createInitialResult]
  · intro operations timedOut transactionId _
    cases timedOut with
    | true => simp [executeEventuallyConsistent, createInitialResult]
    | false =>
      simp [executeEventuallyConsistent,
        runEventuallyConsistentOperations_char, createInitialResult]

/-- C2 witness: the coordinated conjunct at a concrete successful run. -/
theorem C2_witness :
    (executeCoordinatedTransaction [opA, opC] cfg0 "t").1.rolledBack = [] :=
  C2_rolledBack_empty_of_success.1 [opA, opC] cfg0 "t" (by decide)

/-- C3 counterexample: with a first operation whose prepare fails and a
second that prepares fine but whose `ROLLBACK` throws, the second
transaction did prepare yet is NOT recorded in `rolledBack` (the rollback
failure lands in the error list instead). -/
theorem C3_counterexample :
    prepareOk cfg0 opRollbackFail ∧
    ¬ (getDatabaseId opRollbackFail.db ∈
        (executeCoordinatedTransaction [opPrepFail, opRollbackFail] cfg0
          "t").1.rolledBack) := by decide

/-- C3 (amended): every operation's participant receives a prepare attempt
in input order regardless of earlier prepare failures (the run's trace is
exactly the list of prepare attempts, so in particular no unit of work is
invoked); if at least one prepare failed then `success = false`, and every
transaction that did prepare and whose rollback attempt succeeded is
recorded in `rolledBack` (a failed rollback is recorded in the error list
instead). -/
theorem C3_coordinated_prepare_failure (operations : List DatabaseOperation)
    (config : TransactionConfig) (transactionId : String)
    (hfail : ∃ op ∈ operations, ¬ prepareOk config op) :
    ((executeCoordinatedTransaction operations config transactionId).2 =
      operations.map (fun op => CoordEvent.prepareAttempt (getDatabaseId op.db))) ∧
    ((executeCoordinatedTransaction operations config transactionId).1.success =
      false) ∧
    (∀ op ∈ operations, prepareOk config op → rollbackOk op →
      getDatabaseId op.db ∈
        (executeCoordinatedTransaction operations config
          transactionId).1.rolledBack) := by
  obtain ⟨opf, hopf, hopfail⟩ := hfail
  have hall : operations.all
      (fun op => beginTransaction op.db config op.prepRes == none) = false := by
    rcases hb : beginTransaction opf.db config opf.prepRes with _ | e
    · exact absurd hb hopfail
    · refine List.all_eq_false.mpr ⟨opf, hopf, ?_⟩
      simp [hb]
  simp only [executeCoordinatedTransaction, runCoordinatedTransaction]
  rw [prepare_char, hall]
  simp only [executePreparedTransactions, createInitialResult, Bool.and_false,
    Bool.false_eq_true, if_false]
  simp only [finalizePreparedTransactions, Bool.false_eq_true, if_false]
  rw [rollbackAll_char]
  refine ⟨by simp, by simp, ?_⟩
  intro op hmem hpok hrb
  have hfm : getDatabaseId op.db ∈ (operations.filter
      (fun op => beginTransaction op.db config op.prepRes == none)).filterMap
      (fun op =>
        if op.db.kind == DbKind.pg && op.rollbackRes.isSome then none
        else some (getDatabaseId op.db)) := by
    refine List.mem_filterMap.mpr ⟨op, ?_, ?_⟩
    · refine List.mem_filter.mpr ⟨hmem, ?_⟩
      have : beginTransaction op.db config op.prepRes = none := hpok
      simp [this]
    · by_cases hkd : op.db.kind = DbKind.pg
      · simp [hkd, hrb hkd]
      · simp [hkd]
  simpa using hfm

/-- C3 witness: the amended statement at a concrete input with one failing
prepare and one prepared Postgres participant whose rollback succeeds. -/
theorem C3_witness :
    ((executeCoordinatedTransaction [opPrepFail, opA] cfg0 "t").2 =
      [CoordEvent.prepareAttempt (getDatabaseId pgDbA),
       CoordEvent.prepareAttempt (getDatabaseId pgDbA)]) ∧
    ((executeCoordinatedTransaction [opPrepFail, opA] cfg0 "t").1.success =
      false) ∧
    (getDatabaseId opA.db ∈
      (executeCoordinatedTransaction [opPrepFail, opA] cfg0 "t").1.rolledBack) :=
  ⟨(C3_coordinated_prepare_failure [opPrepFail, opA] cfg0 "t" (by decide)).1,
   (C3_coordinated_prepare_failure [opPrepFail, opA] cfg0 "t" (by decide)).2.1,
   (C3_coordinated_prepare_failure [opPrepFail, opA] cfg0 "t" (by decide)).2.2
     opA (by decide) (by decide) (by decide)⟩

/-- C4: if all operations before position `pre.length` succeed and the
operation at that position fails, the compensations for the completed
operations are run exactly once each in strictly reverse index order (the
run's compensation events are precisely `pre.enum.reverse`), and a failing
compensation contributes a `Compensation failed:` entry to the error list
without aborting the remaining compensations. -/
theorem C4_saga_compensations (pre post : List DatabaseOperation)
    (opk : DatabaseOperation) (e : String) (comps : List (Option String))
    (transactionId : String)
    (hpre : ∀ op ∈ pre, execOk op) (hk : opk.opRes = some e)
    (hlen : pre.length ≤ comps.length) :
    (((executeSagaTransaction (pre ++ opk :: post) comps transactionId).2.filter
        (fun ev => match ev with
          | CoordEvent.compensationRun _ _ => true
          | _ => false)) =
      (pre.enum.reverse).map
        (fun p => CoordEvent.compensationRun p.1 (getDatabaseId p.2.db))) ∧
    (∀ (j : Nat) (hj : j < pre.length) (ce : String),
      comps[j]? = some (some ce) →
      (getDatabaseId (pre.get ⟨j, hj⟩).db, "Compensation failed: " ++ ce) ∈
        (executeSagaTransaction (pre ++ opk :: post) comps
          transactionId).1.errors) := by
  have hpre2 : ∀ op ∈ pre, op.opRes = none := fun op h => hpre op h
  have htake : pre.enum.take pre.length = pre.enum := by
    rw [← List.enum_length (l := pre), List.take_length]
  simp only [executeSagaTransaction]
  rw [executeSagaOperations_fail_char comps opk e hk pre hpre2 post []
    (createInitialResult transactionId)]
  simp only [List.nil_append, executeCompensations]
  rw [executeCompensationsAux_char pre comps pre.length (Nat.le_refl _) hlen,
    htake]
  constructor
  · simp [List.filter_append, List.filter_map, Function.comp_def]
  · intro j hj ce hcj
    have hmem : (j, pre.get ⟨j, hj⟩) ∈ pre.enum.reverse := by
      rw [List.mem_reverse, List.mk_mem_enum_iff_getElem?]
      exact (List.getElem?_eq_getElem hj).symm ▸ rfl
    have hfm : (getDatabaseId (pre.get ⟨j, hj⟩).db, "Compensation failed: " ++ ce) ∈
        (pre.enum.reverse).filterMap
          (fun p => match comps[p.1]? with
            | some (some ce) =>
              some (getDatabaseId p.2.db, "Compensation failed: " ++ ce)
            | _ => none) :=
      List.mem_filterMap.mpr ⟨(j, pre.get ⟨j, hj⟩), hmem, by simp [hcj]⟩
    simp only [createInitialResult, List.nil_append]
    exact List.mem_append.mpr (Or.inr hfm)

/-- C4 witness: a two-step saga whose third operation fails; the
compensations run in the order 1, 0 and the failing compensation of step 0
is recorded in the error list. -/
theorem C4_witness :
    (((executeSagaTransaction ([opA, opC] ++ opBFail :: []) [some "ua", none]
        "t").2.filter
        (fun ev => match ev with
          | CoordEvent.compensationRun _ _ => true
          | _ => false)) =
      ([opA, opC].enum.reverse).map
        (fun p => CoordEvent.compensationRun p.1 (getDatabaseId p.2.db))) ∧
    ((getDatabaseId pgDbA, "Compensation failed: " ++ "ua") ∈
      (executeSagaTransaction ([opA, opC] ++ opBFail :: []) [some "ua", none]
        "t").1.errors) :=
  ⟨(C4_saga_compensations [opA, opC] [] opBFail "boom" [some "ua", none] "t"
      (by decide) (by decide) (by decide)).1,
   (C4_saga_compensations [opA, opC] [] opBFail "boom" [some "ua", none] "t"
      (by decide) (by decide) (by decide)).2 0 (by decide) "ua" (by decide)⟩

/-- C5 counterexample: passing an operation whose participant is neither a
Postgres nor a MongoDB handle does NOT surface as a thrown exception — the
prepare loop catches the `Unsupported database type` error and captures it
in the returned result's error list. -/
theorem C5_counterexample :
    (getDatabaseId otherDb, "Unsupported database type") ∈
      (executeCoordinatedTransaction [opOther] cfg0 "t").1.errors := by decide

/-- C5 (amended): an unsupported participant makes its prepare attempt
fail; the failure is captured as an `Unsupported database type` entry in
the returned result's error list with `success = false`, and the call
returns that result to the caller instead of throwing. -/
theorem C5_unsupported_captured (operations : List DatabaseOperation)
    (config : TransactionConfig) (transactionId : String)
    (op : DatabaseOperation) (hmem : op ∈ operations)
    (hkind : op.db.kind = DbKind.other) :
    ((getDatabaseId op.db, "Unsupported database type") ∈
      (executeCoordinatedTransaction operations config transactionId).1.errors) ∧
    ((executeCoordinatedTransaction operations config transactionId).1.success =
      false) := by
  have hbt : beginTransaction op.db config op.prepRes =
      some "Unsupported database type" := by
    unfold beginTransaction
    rw [hkind]
  have hall : operations.all
      (fun op => beginTransaction op.db config op.prepRes == none) = false :=
    List.all_eq_false.mpr ⟨op, hmem, by simp [hbt]⟩
  simp only [executeCoordinatedTransaction, runCoordinatedTransaction]
  rw [prepare_char, hall]
  simp only [executePreparedTransactions, createInitialResult, Bool.and_false,
    Bool.false_eq_true, if_false]
  simp only [finalizePreparedTransactions, Bool.false_eq_true, if_false]
  rw [rollbackAll_char]
  refine ⟨?_, by simp⟩
  have hfm : (getDatabaseId op.db, "Unsupported database type") ∈
      operations.filterMap
        (fun op => (beginTransaction op.db config op.prepRes).map
          (fun e => (getDatabaseId op.db, e))) :=
    List.mem_filterMap.mpr ⟨op, hmem, by simp [hbt]⟩
  simp only [List.nil_append]
  exact List.mem_append.mpr (Or.inl hfm)

/-- C5 witness: the amended statement at the concrete one-operation list
with an unsupported participant. -/
theorem C5_witness :
    ((getDatabaseId opOther.db, "Unsupported database type") ∈
      (executeCoordinatedTransaction [opOther] cfg0 "t").1.errors) ∧
    ((executeCoordinatedTransaction [opOther] cfg0 "t").1.success = false) :=
  C5_unsupported_captured [opOther] cfg0 "t" opOther (by decide) (by decide)

/-- C7 counterexample: with a configured table to truncate and a truncation
step that throws, teardown issues no `ROLLBACK` at all — the `finally`
block only releases the client. -/
theorem C7_counterexample :
    ¬ (HarnessEvent.query "ROLLBACK" ∈
        (harnessAfterEach true ["users"] (some "disk full") none).1) := by decide

/-- C7 (amended): once setup has leased a client, teardown always releases
it (the release is the last client action on every path), and it issues the
`ROLLBACK` whenever the optional truncation step does not throw — in
particular always when no tables are configured; a throwing truncation
skips the rollback but still releases the client. -/
theorem C7_teardown (tablesToTruncate : List String)
    (truncateRes rollbackRes : Option String) :
    ((harnessAfterEach true tablesToTruncate truncateRes rollbackRes).1.getLast? =
      some HarnessEvent.release) ∧
    ((tablesToTruncate = [] ∨ truncateRes = none) →
      HarnessEvent.query "ROLLBACK" ∈
        (harnessAfterEach true tablesToTruncate truncateRes rollbackRes).1) := by
  cases tablesToTruncate with
  | nil => cases truncateRes <;> simp [harnessAfterEach]
  | cons t rest => cases truncateRes <;> simp [harnessAfterEach]

/-- C7 witness: a teardown with one configured table whose truncation
succeeds issues the rollback and releases last. -/
theorem C7_witness :
    ((harnessAfterEach true ["users"] none none).1.getLast? =
      some HarnessEvent.release) ∧
    (HarnessEvent.query "ROLLBACK" ∈
      (harnessAfterEach true ["users"] none none).1) :=
  ⟨(C7_teardown ["users"] none none).1,
   (C7_teardown ["users"] none none).2 (Or.inr rfl)⟩

/-- C8: calling `connect()` on a handle whose state is `connecting`,
`connected`, or `disconnecting` leaves the handle unchanged, creates no new
pool/client (the creation counters are untouched), and throws nothing —
for both engines. -/
theorem C8_connect_noop (hp : PostgresTestDB) (hm : MongoDBTestDB)
    (o1 o2 : Option String)
    (h1 : hp.state ≠ ConnectionState.disconnected)
    (h2 : hm.state ≠ ConnectionState.disconnected) :
    hp.connect o1 = (hp, none) ∧ hm.connect o2 = (hm, none) := by
  constructor
  · simp [PostgresTestDB.connect, h1]
  · simp [MongoDBTestDB.connect, h2]

/-- C8 witness: connected Postgres and MongoDB handles. -/
theorem C8_witness :
    pgConnected.connect none = (pgConnected, none) ∧
    mongoConnected.connect (some "refused") = (mongoConnected, none) :=
  C8_connect_noop pgConnected mongoConnected none (some "refused")
    (by decide) (by decide)

/-- C9: every entry appended to the error list of
`executeEventuallyConsistent` carries the constant identifier `eventual` as
its database field (never the failing participant's own database id). -/
theorem C9_eventual_error_ids (operations : List DatabaseOperation)
    (timedOut : Bool) (transactionId : String) (p : String × String)
    (hp : p ∈ (executeEventuallyConsistent operations timedOut
      transactionId).errors) :
    p.1 = "eventual" := by
  cases timedOut with
  | true => simp [executeEventuallyConsistent, createInitialResult] at hp
  | false =>
    simp only [executeEventuallyConsistent, if_false, Bool.false_eq_true,
      runEventuallyConsistentOperations_char, createInitialResult,
      List.nil_append] at hp
    obtain ⟨op, -, hep⟩ := List.mem_filterMap.mp hp
    rcases he : op.opRes with _ | e
    · rw [he] at hep
      simp at hep
    · rw [he] at hep
      have hpe : ("eventual", e) = p := by simpa using hep
      rw [← hpe]

/-- C9 witness: a concrete failing operation yields exactly the entry
`("eventual", "boom")`, whose database field is `eventual`. -/
theorem C9_witness : (("eventual", "boom") : String × String).1 = "eventual" :=
  C9_eventual_error_ids [opBFail] false "t" ("eventual", "boom") (by decide)

/-- C10: calling `disconnect()` on a handle whose state is `disconnected`
returns immediately, leaves the handle unchanged (state still
`disconnected`, no engine call made), and throws nothing — for both
engines. -/
theorem C10_disconnect_noop (hp : PostgresTestDB) (hm : MongoDBTestDB)
    (o1 o2 : Option String)
    (h1 : hp.state = ConnectionState.disconnected)
    (h2 : hm.state = ConnectionState.disconnected) :
    hp.disconnect o1 = (hp, none) ∧ hm.disconnect o2 = (hm, none) := by
  constructor
  · simp [PostgresTestDB.disconnect, h1]
  · simp [MongoDBTestDB.disconnect, h2]

/-- C10 witness: disconnected Postgres and MongoDB handles. -/
theorem C10_witness :
    pgDisconnected.disconnect (some "broken") = (pgDisconnected, none) ∧
    mongoDisconnected.disconnect none = (mongoDisconnected, none) :=
  C10_disconnect_noop pgDisconnected mongoDisconnected (some "broken") none
    (by decide) (by decide)

end TestDb
